import Mathlib

/-!
Formal model of the build orchestration engine of the yugabyte-db-thirdparty
build scripts (yb_build_thirdparty_main.py and
python/yugabyte_db_thirdparty/shared_library_checking.py).

Effectful Python code is embedded shallowly: the filesystem, the network and
the subprocess results are passed in explicitly, and each modelled function
returns the data it would have produced together with the state it would have
left behind.  Fatal errors and raised exceptions are represented with Except
or with explicit outcome constructors.
-/

/-! ### Constants from yb_build_thirdparty_main.py -/

def MAX_FETCH_ATTEMPTS : Nat := 10

def INITIAL_DOWNLOAD_RETRY_SLEEP_TIME_SEC : Rat := 1

def DOWNLOAD_RETRY_SLEEP_INCREASE_SEC : Rat := 1 / 2

/-- Build types, from the build_definitions package.  The Python code holds
them as distinct string constants (BUILD_TYPE_COMMON and so on) and only ever
compares them for equality, so an enumeration is a faithful embedding. -/
inductive BuildType where
  | common
  | uninstrumented
  | gcc8_uninstrumented
  | clang_uninstrumented
  | asan
  | tsan
deriving DecidableEq, Repr

/-! ### Build stamp engine: Builder.should_rebuild_dependency

The stamp file on disk is modelled as an Option String (none when the file
does not exist, otherwise its full content), the dependency attribute
dep.dir_name as an Option String, the existence of the source directory as a
Bool, and the freshly computed stamp (Builder.get_build_stamp_for_dependency,
which shells out to git) as an opaque String parameter. -/

def should_rebuild_dependency (stampFileContent : Option String)
    (dirName : Option String) (srcDirExists : Bool) (newStamp : String) : Bool :=
  if dirName.isSome && !srcDirExists then
    true
  else
    !(stampFileContent == some newStamp)

/-! ### Dependency selector: Builder.init

The registry is the list of dependency names in registry order.  The
positional argument list and the --skip string mirror argparse results; in
Python an empty list and an empty or missing string are falsy. -/

def truthy_list (l : List String) : Bool := !l.isEmpty

def truthy_str : Option String → Bool
  | none => false
  | some s => !s.isEmpty

/-- Loop from the skip branch of Builder.init: walk the registry, removing
each skipped name from the skip set as it is seen and selecting the rest.
Returns the selection and the names that remained in the skip set. -/
def skip_select : List String → List String → List String × List String
  | [], skipped => ([], skipped)
  | d :: rest, skipped =>
    if d ∈ skipped then
      skip_select rest (skipped.erase d)
    else
      let r := skip_select rest skipped
      (d :: r.1, r.2)

def init_select (registry : List String) (positional : List String)
    (skip : Option String) : Except String (List String) :=
  if truthy_list positional && truthy_str skip then
    Except.error "skip is not compatible with specifying a list of dependencies to build"
  else if truthy_list positional then
    if positional.all (fun d => registry.contains d) then
      Except.ok (registry.filter (fun d => positional.contains d))
    else
      Except.error "Unknown dependency name"
  else if truthy_str skip then
    let skipped := ((skip.getD "").splitOn ",").dedup
    let r := skip_select registry skipped
    if r.2.isEmpty then Except.ok r.1
    else Except.error "Unknown dependencies, cannot skip"
  else
    Except.ok registry

/-! ### Toolchain choice: Builder.building_with_clang, Builder.set_build_type,
Builder.set_compiler -/

def building_with_clang (isMac : Bool) (buildType : BuildType) : Bool :=
  if isMac then
    true
  else
    buildType == BuildType.asan || buildType == BuildType.tsan ||
      buildType == BuildType.clang_uninstrumented

/-- Compiler type chosen by Builder.set_build_type before it calls
Builder.set_compiler. -/
def compiler_for_build_type (isMac : Bool) (buildType : BuildType) : String :=
  if building_with_clang isMac buildType then "clang"
  else if buildType == BuildType.gcc8_uninstrumented then "gcc8"
  else "gcc"

/-- Builder.set_compiler: on macOS a compiler type other than clang raises a
ValueError; otherwise the requested type is stored.  Returns the stored
compiler type. -/
def set_compiler (isMac : Bool) (compiler_type : String) : Except String String :=
  if isMac then
    if compiler_type ≠ "clang" then
      Except.error "Cannot set compiler type on macOS, only clang is supported"
    else
      Except.ok "clang"
  else
    Except.ok compiler_type

/-! ### Archive extraction: Builder.extract_archive

Inputs that come from the outside world:
- outName: the optional out_name argument;
- destExists: whether a directory with a given basename already exists under
  out_dir (the code probes it for out_name and for the name discovered inside
  the archive);
- tmpCollision: whether the freshly generated unique temporary directory name
  already exists (the code raises an IOError in that case);
- knownExt: whether the archive filename ends in one of the ARCHIVE_TYPES
  extensions (otherwise the code calls fatal);
- extractCmdOk: whether the external extraction command exits with status 0;
- topLevelEntries: the entries os.listdir finds in the temporary directory
  after extraction, each with its name and whether it is a directory.  The
  code ignores entries whose name starts with a dot.

The outcome records the raised error if any, whether the temporary directory
was created, whether it was removed again, and the basename the extracted
directory was moved to (none when nothing was moved, so the destination
directory is untouched). -/

/-- The Python check subdir_name.startswith of a dot, used to skip hidden
entries: true when the first character of the name is a dot. -/
def starts_with_dot (s : String) : Bool := s.data.head? == some '.'

inductive ExtractResult where
  | success
  | skippedExisting
  | collisionError
  | fatalUnknownArchiveType
  | extractCommandFailed
  | formatErrorEntries
  | formatErrorNotDirectory
deriving DecidableEq, Repr

structure ExtractOutcome where
  result : ExtractResult
  tmpDirCreated : Bool
  tmpDirRemoved : Bool
  movedTo : Option String
deriving DecidableEq, Repr

def extract_archive (outName : Option String) (destExists : String → Bool)
    (tmpCollision knownExt extractCmdOk : Bool)
    (topLevelEntries : List (String × Bool)) : ExtractOutcome :=
  let afterEarlyCheck : ExtractOutcome :=
    if tmpCollision then
      ExtractOutcome.mk ExtractResult.collisionError false false none
    else if !knownExt then
      ExtractOutcome.mk ExtractResult.fatalUnknownArchiveType true false none
    else if !extractCmdOk then
      ExtractOutcome.mk ExtractResult.extractCommandFailed true true none
    else
      let extracted := topLevelEntries.filter (fun e => !starts_with_dot e.1)
      match extracted with
      | [(name, isDir)] =>
        if !isDir then
          ExtractOutcome.mk ExtractResult.formatErrorNotDirectory true true none
        else
          match outName with
          | some n => ExtractOutcome.mk ExtractResult.success true true (some n)
          | none =>
            if destExists name then
              ExtractOutcome.mk ExtractResult.skippedExisting true true none
            else
              ExtractOutcome.mk ExtractResult.success true true (some name)
      | _ => ExtractOutcome.mk ExtractResult.formatErrorEntries true true none
  match outName with
  | some n =>
    if destExists n then
      ExtractOutcome.mk ExtractResult.skippedExisting false false none
    else
      afterEarlyCheck
  | none => afterEarlyCheck

/-! ### Download with checksum verification: Builder.ensure_file_downloaded

The file at the destination path is an Option over an abstract content type,
the SHA-256 digest is an abstract hash function into strings, the registered
checksum for the archive filename is the expected parameter, and each curl
invocation is an entry of fetches (indexed by the 1-based attempt number):
an error value models a non-zero curl exit, an ok value models the content
that curl wrote to the path. -/

structure FetchLoopResult (ε α : Type) where
  outcome : Except ε α
  attempts : Nat
  sleeps : List Rat

/-- Retry loop from Builder.ensure_file_downloaded.  The fuel argument is the
number of attempts still allowed after the current one; the entry call uses
MAX_FETCH_ATTEMPTS - 1.  On a failed attempt with fuel left the loop sleeps
for sleepTime seconds and retries with sleepTime increased by
DOWNLOAD_RETRY_SLEEP_INCREASE_SEC; with no fuel left it re-raises the error. -/
def fetch_loop {ε α : Type} (fetches : Nat → Except ε α) :
    Nat → Rat → Nat → FetchLoopResult ε α
  | idx, _, 0 =>
    match fetches idx with
    | Except.ok c => FetchLoopResult.mk (Except.ok c) 1 []
    | Except.error e => FetchLoopResult.mk (Except.error e) 1 []
  | idx, sleepTime, Nat.succ fuel =>
    match fetches idx with
    | Except.ok c => FetchLoopResult.mk (Except.ok c) 1 []
    | Except.error _ =>
      let r := fetch_loop fetches (idx + 1)
        (sleepTime + DOWNLOAD_RETRY_SLEEP_INCREASE_SEC) fuel
      FetchLoopResult.mk r.outcome (r.attempts + 1) (sleepTime :: r.sleeps)

inductive DownloadOutcome (ε : Type) where
  | skipped
  | fetched
  | fetchFailed (e : ε)
  | checksumMismatchFatal
deriving DecidableEq

structure DownloadResult (ε α : Type) where
  fileAtPath : Option α
  networkCalls : Nat
  sleeps : List Rat
  outcome : DownloadOutcome ε
deriving DecidableEq

/-- Fetch phase of Builder.ensure_file_downloaded, entered when no file
exists at the path (either because there was none or because a file with a
wrong checksum was just removed). -/
def ensure_file_downloaded_fetch {ε α : Type} (hash : α → String)
    (expected : String) (fetches : Nat → Except ε α) : DownloadResult ε α :=
  let r := fetch_loop fetches 1 INITIAL_DOWNLOAD_RETRY_SLEEP_TIME_SEC
    (MAX_FETCH_ATTEMPTS - 1)
  match r.outcome with
  | Except.error e =>
    DownloadResult.mk none r.attempts r.sleeps (DownloadOutcome.fetchFailed e)
  | Except.ok c =>
    if hash c == expected then
      DownloadResult.mk (some c) r.attempts r.sleeps DownloadOutcome.fetched
    else
      DownloadResult.mk (some c) r.attempts r.sleeps
        DownloadOutcome.checksumMismatchFatal

def ensure_file_downloaded {ε α : Type} (hash : α → String) (expected : String)
    (existing : Option α) (fetches : Nat → Except ε α) : DownloadResult ε α :=
  match existing with
  | some c =>
    if hash c == expected then
      DownloadResult.mk (some c) 0 [] DownloadOutcome.skipped
    else
      ensure_file_downloaded_fetch hash expected fetches
  | none => ensure_file_downloaded_fetch hash expected fetches

/-! ### Build of one dependency: Builder.build_dependency

The externally observable state relevant to the stamp is the content of the
per-dependency stamp file.  The fetch, extract and patch phase
(Builder.download_dependency) is modelled by its sentinel check, the success
of the fetch and extract steps, and the exit code of each applied patch; the
build adapter (dep.build) and the build directory preparation
(Builder.create_build_dir_and_prepare) are modelled by success flags.  The
stamp file is written by Builder.save_build_stamp_for_dependency only at the
very end. -/

inductive BuildError where
  | fetchError
  | patchError (exitCode : Nat)
  | prepareError
  | adapterError
deriving DecidableEq, Repr

structure DepBuildState where
  stampFile : Option String
  sentinel : Bool
deriving DecidableEq, Repr

/-- Builder.download_dependency: returns whether the sentinel marker exists
afterwards, or the error that was raised. -/
def download_dependency (sentinelExists fetchOk : Bool)
    (patchExitCodes : List Nat) : Except BuildError Bool :=
  if sentinelExists then
    Except.ok true
  else if !fetchOk then
    Except.error BuildError.fetchError
  else
    match patchExitCodes.find? (fun code => code ≠ 0) with
    | some code => Except.error (BuildError.patchError code)
    | none => Except.ok true

def build_dependency (shouldRebuild : Bool) (oldStamp : Option String)
    (sentinelExists fetchOk : Bool) (patchExitCodes : List Nat)
    (prepareOk adapterOk : Bool) (newStamp : String) :
    DepBuildState × Option BuildError :=
  if !shouldRebuild then
    (DepBuildState.mk oldStamp sentinelExists, none)
  else
    match download_dependency sentinelExists fetchOk patchExitCodes with
    | Except.error e => (DepBuildState.mk oldStamp sentinelExists, some e)
    | Except.ok sentinelNow =>
      if !prepareOk then
        (DepBuildState.mk oldStamp sentinelNow, some BuildError.prepareError)
      else if !adapterOk then
        (DepBuildState.mk oldStamp sentinelNow, some BuildError.adapterError)
      else
        (DepBuildState.mk (some newStamp) sentinelNow, none)

/-! ### Shared library auditor: LibTestBase.check_lib_deps, LibTestLinux.good_libs
and LibTestBase.run, from
python/yugabyte_db_thirdparty/shared_library_checking.py

Regular expression matching against the allowlist alternation
(self.okay_paths.match) and against LIBCXX_NOT_FOUND is abstracted into
boolean predicates on lines. -/

def additional_matches (additional : Option (String → Bool)) (line : String) : Bool :=
  match additional with
  | some p => p line
  | none => false

def check_lib_deps (okay_match : String → Bool)
    (additional : Option (String → Bool)) (cmdoutLines : List String) : Bool :=
  cmdoutLines.foldl
    (fun status line =>
      if !okay_match line && !additional_matches additional line then false
      else status)
    true

/-- LibTestLinux.good_libs: an ldd exit code above 1 fails the file outright;
otherwise its output lines are classified, with the LIBCXX_NOT_FOUND
exception pattern allowed only for files whose basename starts with the
libc++abi shared object prefix. -/
def good_libs (okay_match libcxx_not_found : String → Bool)
    (lddExitCode : Nat) (fileBasename : String) (lddOutputLines : List String) : Bool :=
  if lddExitCode > 1 then
    false
  else
    check_lib_deps okay_match
      (if fileBasename.startsWith "libc++abi.so." then some libcxx_not_found
       else none)
      lddOutputLines

structure ScannedFile where
  isSymlink : Bool
  basename : String
  lddExitCode : Nat
  lines : List String

/-- LibTestBase.run: every regular non-symlink file found under the scanned
directories is examined; a failing file clears test_pass but the scan goes
on.  Returns the overall pass flag together with the number of files
examined with good_libs. -/
def lib_test_run (okay_match libcxx_not_found : String → Bool)
    (files : List ScannedFile) : Bool × Nat :=
  files.foldl
    (fun acc f =>
      if f.isSymlink then acc
      else
        (acc.1 && good_libs okay_match libcxx_not_found f.lddExitCode
            f.basename f.lines,
         acc.2 + 1))
    (true, 0)

/-! ### Compiler flag composition: Builder.init_flags and Builder.setup_compiler

Only self.compiler_flags is modelled, which is the list that receives the
sanitizer flags.  Builder.init_flags seeds it with the preprocessor include
flag for the common install prefix and the fixed base flags, plus the macOS
minimum version flag on macOS; Builder.setup_compiler then returns early on
macOS or when not building with clang, and otherwise appends the sanitizer
flags for ASAN and TSAN, nothing for CLANG_UNINSTRUMENTED, and calls fatal
for any other build type; finally it appends the gcc toolchain flag when
using Linuxbrew. -/

def init_flags_compiler_flags (isMac : Bool) (commonIncludeDir : String) :
    List String :=
  ["-I" ++ commonIncludeDir] ++
    ["-fno-omit-frame-pointer", "-fPIC", "-O2", "-Wall"] ++
    (if isMac then ["-mmacosx-version-min=10.14"] else [])

def setup_compiler_flags (isMac usingLinuxbrew : Bool)
    (linuxbrewDir commonIncludeDir : String) (buildType : BuildType) :
    Except String (List String) :=
  let base := init_flags_compiler_flags isMac commonIncludeDir
  let brewFlags : List String :=
    if usingLinuxbrew then ["--gcc-toolchain=" ++ linuxbrewDir] else []
  if isMac || !building_with_clang isMac buildType then
    Except.ok base
  else if buildType == BuildType.asan then
    Except.ok (base ++ ["-fsanitize=address", "-fsanitize=undefined",
      "-DADDRESS_SANITIZER"] ++ brewFlags)
  else if buildType == BuildType.tsan then
    Except.ok (base ++ ["-fsanitize=thread", "-DTHREAD_SANITIZER"] ++ brewFlags)
  else if buildType == BuildType.clang_uninstrumented then
    Except.ok (base ++ brewFlags)
  else
    Except.error "Wrong instrumentation type"

/-! ## Theorems -/

/-- Claim C1: the rebuild decision of Builder.should_rebuild_dependency
returns true when no prior stamp file exists, when the dependency has a
source directory and it is absent, or when the freshly computed stamp differs
from the persisted one; it returns false exactly when the persisted stamp
equals the fresh stamp byte for byte and the source directory, when the
dependency has one, exists. -/
theorem should_rebuild_dependency_spec (stampFileContent dirName : Option String)
    (srcDirExists : Bool) (newStamp : String) :
    (stampFileContent = none →
      should_rebuild_dependency stampFileContent dirName srcDirExists newStamp = true) ∧
    (dirName.isSome = true → srcDirExists = false →
      should_rebuild_dependency stampFileContent dirName srcDirExists newStamp = true) ∧
    (stampFileContent ≠ some newStamp →
      should_rebuild_dependency stampFileContent dirName srcDirExists newStamp = true) ∧
    (should_rebuild_dependency stampFileContent dirName srcDirExists newStamp = false ↔
      (stampFileContent = some newStamp ∧ (dirName.isSome = true → srcDirExists = true))) := by
  cases dirName <;> cases srcDirExists <;> cases stampFileContent <;>
    simp [should_rebuild_dependency]

/-- Witness for C1: with no prior stamp file the decision is a rebuild. -/
theorem should_rebuild_dependency_witness :
    should_rebuild_dependency none (some "zlib") true "stamp-a" = true :=
  (should_rebuild_dependency_spec none (some "zlib") true "stamp-a").1 rfl

/-- The selection built by the skip branch of Builder.init is the
registry-ordered remainder after removing the skipped names. -/
theorem skip_select_fst (registry : List String) (hreg : registry.Nodup) :
    ∀ skipped : List String,
      (skip_select registry skipped).1 =
        registry.filter (fun d => !skipped.contains d) := by
  induction registry with
  | nil => intro skipped; rfl
  | cons d rest ih =>
    intro skipped
    have hd : d ∉ rest := (List.nodup_cons.mp hreg).1
    have hrest : rest.Nodup := (List.nodup_cons.mp hreg).2
    by_cases hmem : d ∈ skipped
    · have hc : skipped.contains d = true := List.elem_iff.mpr hmem
      have hcongr : rest.filter (fun e => !(skipped.erase d).contains e) =
          rest.filter (fun e => !skipped.contains e) := by
        refine List.filter_congr (fun e he => ?_)
        have hne : e ≠ d := fun h => hd (h ▸ he)
        have h4 : (skipped.erase d).contains e = skipped.contains e := by
          rw [Bool.eq_iff_iff]
          simp only [List.elem_iff]
          exact List.mem_erase_of_ne hne
        rw [h4]
      simp only [skip_select, if_pos hmem]
      rw [ih hrest, hcongr, List.filter_cons]
      simp [hc, hmem]
    · have hc : skipped.contains d = false := by
        rw [Bool.eq_false_iff]
        intro hcon
        exact hmem (List.elem_iff.mp hcon)
      simp only [skip_select, if_neg hmem]
      rw [ih hrest, List.filter_cons]
      simp [hc, hmem]

/-- The skip set drains to empty exactly when every skipped name occurs in
the registry. -/
theorem skip_select_snd_empty (registry : List String) :
    ∀ skipped : List String, skipped.Nodup →
      ((skip_select registry skipped).2 = [] ↔ ∀ x ∈ skipped, x ∈ registry) := by
  induction registry with
  | nil =>
    intro skipped _
    simp only [skip_select]
    constructor
    · intro h x hx; rw [h] at hx; exact hx
    · intro h
      exact List.eq_nil_iff_forall_not_mem.mpr
        (fun x hx => absurd (h x hx) (List.not_mem_nil x))
  | cons d rest ih =>
    intro skipped hnd
    by_cases hmem : d ∈ skipped
    · simp only [skip_select, if_pos hmem]
      rw [ih (skipped.erase d) (hnd.erase d)]
      constructor
      · intro h x hx
        by_cases hxd : x = d
        · exact hxd ▸ List.mem_cons_self d rest
        · exact List.mem_cons_of_mem d (h x ((List.mem_erase_of_ne hxd).mpr hx))
      · intro h x hx
        have hxd : x ≠ d := (hnd.mem_erase_iff.mp hx).1
        have hxs : x ∈ skipped := (hnd.mem_erase_iff.mp hx).2
        rcases List.mem_cons.mp (h x hxs) with h1 | h1
        · exact absurd h1 hxd
        · exact h1
    · simp only [skip_select, if_neg hmem]
      rw [ih skipped hnd]
      constructor
      · intro h x hx; exact List.mem_cons_of_mem d (h x hx)
      · intro h x hx
        rcases List.mem_cons.mp (h x hx) with h1 | h1
        · exact absurd (h1 ▸ hx) hmem
        · exact h1

/-- A nonempty skip string is truthy. -/
theorem truthy_str_some_ne (s : String) (hne : s ≠ "") :
    truthy_str (some s) = true := by
  simp only [truthy_str]
  rw [Bool.not_eq_true']
  rw [Bool.eq_false_iff]
  intro hcon
  exact hne ((String.isEmpty_iff s).mp hcon)

/-- Claim C6: Builder.init rejects a run that supplies both a positional
inclusion list and a skip list; with an inclusion list every named dependency
must exist in the registry or the run fails; with a skip list every skipped
name must exist or the run fails, and the selection is the registry-ordered
remainder; with no filter all registry dependencies are selected in registry
order. -/
theorem init_select_spec (registry positional : List String) (skip : Option String) :
    (positional ≠ [] → ∀ s, skip = some s → s ≠ "" →
      (init_select registry positional skip).isOk = false) ∧
    (positional ≠ [] → ∀ d, d ∈ positional → d ∉ registry →
      (init_select registry positional skip).isOk = false) ∧
    (positional = [] → ∀ s, skip = some s → s ≠ "" →
      (∃ x ∈ (s.splitOn ",").dedup, x ∉ registry) →
      (init_select registry positional skip).isOk = false) ∧
    (positional = [] → ∀ s, skip = some s → s ≠ "" → registry.Nodup →
      (∀ x ∈ (s.splitOn ",").dedup, x ∈ registry) →
      init_select registry positional skip =
        Except.ok (registry.filter (fun d => !((s.splitOn ",").dedup.contains d)))) ∧
    (positional = [] → (skip = none ∨ skip = some "") →
      init_select registry positional skip = Except.ok registry) := by
  refine ⟨?_, ?_, ?_, ?_, ?_⟩
  · intro hpos s hs hne
    subst hs
    have h1 : truthy_list positional = true := by
      simp [truthy_list, List.isEmpty_iff, hpos]
    have h2 := truthy_str_some_ne s hne
    simp only [init_select]
    rw [h1, h2]
    rfl
  · intro hpos d hd hdreg
    have h1 : truthy_list positional = true := by
      simp [truthy_list, List.isEmpty_iff, hpos]
    by_cases h2 : truthy_str skip = true
    · simp only [init_select]
      rw [h1, h2]
      rfl
    · have h2f : truthy_str skip = false := by
        cases h : truthy_str skip
        · rfl
        · exact absurd h h2
      have hall : positional.all (fun d => registry.contains d) = false := by
        cases h : positional.all (fun d => registry.contains d)
        · rfl
        · exact absurd (List.elem_iff.mp (List.all_eq_true.mp h d hd)) hdreg
      simp only [init_select]
      rw [h1, h2f, hall]
      rfl
  · intro hpos s hs hne hbad
    subst hpos hs
    have h2 := truthy_str_some_ne s hne
    obtain ⟨x, hx, hxreg⟩ := hbad
    have hrem : (skip_select registry (s.splitOn ",").dedup).2 ≠ [] := by
      intro h
      exact hxreg
        (((skip_select_snd_empty registry (s.splitOn ",").dedup
          (List.nodup_dedup _)).mp h) x hx)
    have hremb : (skip_select registry (s.splitOn ",").dedup).2.isEmpty = false := by
      cases h : (skip_select registry (s.splitOn ",").dedup).2.isEmpty
      · rfl
      · exact absurd (List.isEmpty_iff.mp h) hrem
    simp only [init_select, Option.getD_some]
    rw [h2, hremb]
    rfl
  · intro hpos s hs hne hnodup hall
    subst hpos hs
    have h2 := truthy_str_some_ne s hne
    have hrem : (skip_select registry (s.splitOn ",").dedup).2 = [] :=
      (skip_select_snd_empty registry (s.splitOn ",").dedup
        (List.nodup_dedup _)).mpr hall
    have hremb : (skip_select registry (s.splitOn ",").dedup).2.isEmpty = true :=
      List.isEmpty_iff.mpr hrem
    have hsel := skip_select_fst registry hnodup (s.splitOn ",").dedup
    simp only [init_select, Option.getD_some]
    rw [h2, hremb, hsel]
    rfl
  · intro hpos hskip
    subst hpos
    rcases hskip with h | h <;> subst h <;> rfl

/-- Witness for C6: a run that passes both an inclusion list and a skip list
is rejected. -/
theorem init_select_witness :
    (init_select ["zlib", "boost"] ["zlib"] (some "boost")).isOk = false :=
  (init_select_spec ["zlib", "boost"] ["zlib"] (some "boost")).1
    (by simp) "boost" rfl (by simp)

/-- Claim C7: the compiler family activated for a build type is clang exactly
for ASAN, TSAN and CLANG_UNINSTRUMENTED, or when the platform forces clang
universally as macOS does; apart from the explicitly gcc8-pinned build type
it is gcc otherwise; and Builder.set_compiler raises on macOS for any
compiler type other than clang instead of silently substituting. -/
theorem toolchain_choice_spec (isMac : Bool) (buildType : BuildType) :
    (compiler_for_build_type isMac buildType = "clang" ↔
      (isMac = true ∨ buildType = BuildType.asan ∨ buildType = BuildType.tsan ∨
        buildType = BuildType.clang_uninstrumented)) ∧
    (buildType ≠ BuildType.gcc8_uninstrumented →
      compiler_for_build_type isMac buildType = "clang" ∨
      compiler_for_build_type isMac buildType = "gcc") ∧
    (∀ t : String, t ≠ "clang" →
      set_compiler true t =
        Except.error "Cannot set compiler type on macOS, only clang is supported") ∧
    (set_compiler true "clang" = Except.ok "clang") := by
  refine ⟨?_, ?_, ?_, ?_⟩
  · cases isMac <;> cases buildType <;>
      simp [compiler_for_build_type, building_with_clang]
  · intro hne
    cases isMac <;> cases buildType <;>
      simp_all [compiler_for_build_type, building_with_clang]
  · intro t ht
    simp [set_compiler, ht]
  · rfl

/-- Witness for C7: requesting gcc on macOS is rejected. -/
theorem toolchain_choice_witness :
    set_compiler true "gcc" =
      Except.error "Cannot set compiler type on macOS, only clang is supported" :=
  (toolchain_choice_spec true BuildType.common).2.2.1 "gcc" (by decide)

/-- Claim C5: the persisted build stamp is overwritten only after the whole
build of the dependency completes without error.  If the fetch, patch,
prepare or build-adapter step raises, the stamp file keeps its previous
content; the stamp changes only on an error-free rebuild, and then to the
freshly computed stamp. -/
theorem build_stamp_atomic_spec (shouldRebuild : Bool) (oldStamp : Option String)
    (sentinelExists fetchOk : Bool) (patchExitCodes : List Nat)
    (prepareOk adapterOk : Bool) (newStamp : String) (st : DepBuildState)
    (err : Option BuildError)
    (h : build_dependency shouldRebuild oldStamp sentinelExists fetchOk
      patchExitCodes prepareOk adapterOk newStamp = (st, err)) :
    (err.isSome = true → st.stampFile = oldStamp) ∧
    (err = none → shouldRebuild = true → st.stampFile = some newStamp) ∧
    (st.stampFile ≠ oldStamp →
      err = none ∧ shouldRebuild = true ∧ st.stampFile = some newStamp) := by
  have hst : st = (build_dependency shouldRebuild oldStamp sentinelExists fetchOk
      patchExitCodes prepareOk adapterOk newStamp).1 := by rw [h]
  have herr : err = (build_dependency shouldRebuild oldStamp sentinelExists fetchOk
      patchExitCodes prepareOk adapterOk newStamp).2 := by rw [h]
  subst hst herr
  clear h
  simp only [build_dependency, download_dependency]
  generalize patchExitCodes.find? (fun code => code ≠ 0) = fr
  cases shouldRebuild <;>
    cases sentinelExists <;>
      cases fetchOk <;>
        cases prepareOk <;>
          cases adapterOk <;>
            rcases fr with _ | code <;>
              simp

/-- Witness for C5: a failing fetch leaves the old stamp in place. -/
theorem build_stamp_atomic_witness :
    (DepBuildState.mk (some "old-stamp") false).stampFile = some "old-stamp" :=
  (build_stamp_atomic_spec true (some "old-stamp") false false [] true true
    "new-stamp" (DepBuildState.mk (some "old-stamp") false)
    (some BuildError.fetchError) rfl).1 rfl

/-- Claim C2 (amended): for archives whose filename has a recognized archive
type, extraction demands exactly one non-hidden top-level entry which must be
a directory, raising a fatal format error otherwise, and the temporary
extraction directory is removed on every exit path; the unrecognized archive
type error path is excluded because it aborts after creating the temporary
directory but before the scoped cleanup is established. -/
theorem extract_archive_known_type_spec (outName : Option String)
    (destExists : String → Bool) (extractCmdOk : Bool)
    (topLevelEntries : List (String × Bool)) (r : ExtractOutcome)
    (hr : r = extract_archive outName destExists false true extractCmdOk
      topLevelEntries) :
    (r.tmpDirRemoved = r.tmpDirCreated) ∧
    (extractCmdOk = true →
      (outName = none ∨ ∃ n, outName = some n ∧ destExists n = false) →
      ((r.result = ExtractResult.formatErrorEntries ↔
        (topLevelEntries.filter (fun e => !starts_with_dot e.1)).length ≠ 1) ∧
       (r.result = ExtractResult.formatErrorNotDirectory ↔
        ∃ name, topLevelEntries.filter (fun e => !starts_with_dot e.1) =
          [(name, false)]))) := by
  subst hr
  simp only [extract_archive]
  generalize topLevelEntries.filter (fun e => !starts_with_dot e.1) = ex
  rcases outName with _ | n
  · cases hcmd : extractCmdOk
    · simp
    · rcases ex with _ | ⟨⟨name, isDir⟩, restl⟩
      · simp
      · rcases restl with _ | ⟨e2, restl2⟩
        · cases isDir
          · simp
          · cases hdn : destExists name <;> simp [hdn]
        · simp
  · cases hdn : destExists n
    · cases hcmd : extractCmdOk
      · simp [hdn]
      · rcases ex with _ | ⟨⟨name, isDir⟩, restl⟩
        · simp [hdn]
        · rcases restl with _ | ⟨e2, restl2⟩
          · cases isDir <;> simp [hdn]
          · simp [hdn]
    · simp [hdn]

/-- Witness for the amended C2: an archive with two top-level entries raises
the format error and the temporary directory is cleaned up. -/
theorem extract_archive_known_type_witness :
    (extract_archive none (fun _ => false) false true true
      [("a", true), ("b", true)]).result = ExtractResult.formatErrorEntries := by
  have h := extract_archive_known_type_spec none (fun _ => false) true
    [("a", true), ("b", true)] _ rfl
  exact ((h.2 rfl (Or.inl rfl)).1).mpr (by decide)

/-- Counterexample to C2 as stated, in its two diverging parts.  First, an
archive filename with an unrecognized extension makes Builder.extract_archive
abort fatally after the temporary directory was created but before the try
block with the scoped cleanup is entered, so that exit path leaves the
temporary directory behind.  Second, an archive that unpacks into two
top-level entries, one of which is hidden (its name starts with a dot), does
not raise the format error the claim promises for multiple top-level
entries: the hidden entry is filtered out and the extraction succeeds. -/
theorem extract_archive_cleanup_counterexample :
    ((extract_archive none (fun _ => false) false false true
      [("pkg", true)]).result = ExtractResult.fatalUnknownArchiveType ∧
    (extract_archive none (fun _ => false) false false true
      [("pkg", true)]).tmpDirCreated = true ∧
    (extract_archive none (fun _ => false) false false true
      [("pkg", true)]).tmpDirRemoved = false) ∧
    ((extract_archive none (fun _ => false) false true true
      [(".git", false), ("pkg-1.0", true)]).result = ExtractResult.success ∧
    (extract_archive none (fun _ => false) false true true
      [(".git", false), ("pkg-1.0", true)]).movedTo = some "pkg-1.0") :=
  ⟨⟨rfl, rfl, rfl⟩, ⟨rfl, rfl⟩⟩

/-- Claim C10: extraction is idempotent with respect to an existing
destination.  When the destination passed as out_name already exists the
function returns at once without touching it or creating the temporary
directory; when the destination discovered from the archive-internal
directory name already exists the freshly extracted copy is discarded with
the temporary directory and the destination is left unchanged. -/
theorem extract_archive_existing_dest_spec (outName : Option String)
    (destExists : String → Bool) (tmpCollision knownExt extractCmdOk : Bool)
    (topLevelEntries : List (String × Bool)) :
    (∀ n, outName = some n → destExists n = true →
      extract_archive outName destExists tmpCollision knownExt extractCmdOk
          topLevelEntries =
        ExtractOutcome.mk ExtractResult.skippedExisting false false none) ∧
    (∀ name, topLevelEntries.filter (fun e => !starts_with_dot e.1) =
        [(name, true)] →
      destExists name = true →
      extract_archive none destExists false true true topLevelEntries =
        ExtractOutcome.mk ExtractResult.skippedExisting true true none) := by
  constructor
  · intro n hn hde
    subst hn
    simp [extract_archive, hde]
  · intro name hfil hde
    simp [extract_archive, hfil, hde]

/-- Witness for C10: an already existing out_name destination short-circuits
the whole extraction. -/
theorem extract_archive_existing_dest_witness :
    extract_archive (some "zlib-1.2.11") (fun _ => true) false false false [] =
      ExtractOutcome.mk ExtractResult.skippedExisting false false none :=
  (extract_archive_existing_dest_spec (some "zlib-1.2.11") (fun _ => true)
    false false false []).1 "zlib-1.2.11" rfl rfl

/-- The status accumulator of LibTestBase.check_lib_deps folds to a
conjunction over the output lines. -/
theorem check_lib_deps_foldl (okay_match : String → Bool)
    (additional : Option (String → Bool)) :
    ∀ (lines : List String) (init : Bool),
      lines.foldl
        (fun status line =>
          if !okay_match line && !additional_matches additional line then false
          else status)
        init =
      (init && lines.all (fun l => okay_match l || additional_matches additional l)) := by
  intro lines
  induction lines with
  | nil => intro init; simp
  | cons l ls ih =>
    intro init
    rw [List.foldl_cons, ih, List.all_cons]
    cases h1 : okay_match l <;> cases h2 : additional_matches additional l <;>
      cases init <;> simp [h1, h2]

/-- LibTestBase.check_lib_deps passes exactly when every line is matched by
the allowlist or by the additional exception pattern. -/
theorem check_lib_deps_eq_all (okay_match : String → Bool)
    (additional : Option (String → Bool)) (lines : List String) :
    check_lib_deps okay_match additional lines =
      lines.all (fun l => okay_match l || additional_matches additional l) := by
  rw [show check_lib_deps okay_match additional lines =
    lines.foldl
      (fun status line =>
        if !okay_match line && !additional_matches additional line then false
        else status)
      true from rfl]
  rw [check_lib_deps_foldl]
  simp

/-- The accumulator of LibTestBase.run folds to the conjunction of the
per-file verdicts together with the count of examined files. -/
theorem lib_test_run_foldl (okay_match libcxx_not_found : String → Bool) :
    ∀ (files : List ScannedFile) (init : Bool × Nat),
      files.foldl
        (fun acc f =>
          if f.isSymlink then acc
          else
            (acc.1 && good_libs okay_match libcxx_not_found f.lddExitCode
                f.basename f.lines,
             acc.2 + 1))
        init =
      (init.1 && files.all (fun f => f.isSymlink ||
          good_libs okay_match libcxx_not_found f.lddExitCode f.basename f.lines),
       init.2 + (files.filter (fun f => !f.isSymlink)).length) := by
  intro files
  induction files with
  | nil => intro init; simp
  | cons f fs ih =>
    intro init
    rw [List.foldl_cons]
    cases hs : f.isSymlink
    · rw [if_neg Bool.false_ne_true, ih]
      simp [Bool.and_assoc, hs]
      omega
    · rw [if_pos rfl, ih]
      simp [hs]

/-- Claim C8: the shared library auditor fails a file exactly when some
link-inspection output line matches neither the allowlist nor the additional
exception pattern, passes a file whose every line is allowlisted, examines
every regular non-symlink file under the scanned directories without
short-circuiting, and fails the overall run exactly when some examined file
failed. -/
theorem auditor_spec (okay_match libcxx_not_found : String → Bool)
    (additional : Option (String → Bool)) (cmdoutLines : List String)
    (files : List ScannedFile) :
    (check_lib_deps okay_match additional cmdoutLines = false ↔
      ∃ line ∈ cmdoutLines, okay_match line = false ∧
        additional_matches additional line = false) ∧
    ((lib_test_run okay_match libcxx_not_found files).2 =
      (files.filter (fun f => !f.isSymlink)).length) ∧
    ((lib_test_run okay_match libcxx_not_found files).1 = false ↔
      ∃ f ∈ files, f.isSymlink = false ∧
        good_libs okay_match libcxx_not_found f.lddExitCode f.basename
          f.lines = false) := by
  have hrun : lib_test_run okay_match libcxx_not_found files =
      (true && files.all (fun f => f.isSymlink ||
          good_libs okay_match libcxx_not_found f.lddExitCode f.basename f.lines),
       0 + (files.filter (fun f => !f.isSymlink)).length) :=
    lib_test_run_foldl okay_match libcxx_not_found files (true, 0)
  refine ⟨?_, ?_, ?_⟩
  · rw [check_lib_deps_eq_all]
    simp
  · rw [hrun]
    simp
  · rw [hrun]
    simp

/-- The retry loop always makes at least one attempt. -/
theorem fetch_loop_attempts_pos {ε α : Type} (fetches : Nat → Except ε α)
    (fuel idx : Nat) (s : Rat) : 1 ≤ (fetch_loop fetches idx s fuel).attempts := by
  cases fuel <;> rcases hf : fetches idx with e | c <;> simp [fetch_loop, hf]

/-- The retry loop makes at most one attempt more than its remaining fuel. -/
theorem fetch_loop_attempts_le {ε α : Type} (fetches : Nat → Except ε α) :
    ∀ (fuel idx : Nat) (s : Rat),
      (fetch_loop fetches idx s fuel).attempts ≤ fuel + 1 := by
  intro fuel
  induction fuel with
  | zero =>
    intro idx s
    rcases hf : fetches idx with e | c <;> simp [fetch_loop, hf]
  | succ fuel ih =>
    intro idx s
    rcases hf : fetches idx with e | c
    · have hle := ih (idx + 1) (s + DOWNLOAD_RETRY_SLEEP_INCREASE_SEC)
      simp only [fetch_loop, hf]
      omega
    · simp [fetch_loop, hf]

/-- The sleeps performed by the retry loop form the linear backoff sequence:
one sleep between consecutive attempts, starting at the initial sleep time
and increasing by the fixed increment. -/
theorem fetch_loop_sleeps {ε α : Type} (fetches : Nat → Except ε α) :
    ∀ (fuel idx : Nat) (s : Rat),
      (fetch_loop fetches idx s fuel).sleeps =
        (List.range ((fetch_loop fetches idx s fuel).attempts - 1)).map
          (fun i : Nat => s + (i : Rat) * DOWNLOAD_RETRY_SLEEP_INCREASE_SEC) := by
  intro fuel
  induction fuel with
  | zero =>
    intro idx s
    rcases hf : fetches idx with e | c <;> simp [fetch_loop, hf]
  | succ fuel ih =>
    intro idx s
    rcases hf : fetches idx with e | c
    · have hpos := fetch_loop_attempts_pos fetches fuel (idx + 1)
        (s + DOWNLOAD_RETRY_SLEEP_INCREASE_SEC)
      obtain ⟨m, hm⟩ : ∃ m, (fetch_loop fetches (idx + 1)
          (s + DOWNLOAD_RETRY_SLEEP_INCREASE_SEC) fuel).attempts = m + 1 :=
        ⟨(fetch_loop fetches (idx + 1)
          (s + DOWNLOAD_RETRY_SLEEP_INCREASE_SEC) fuel).attempts - 1, by omega⟩
      have ihh := ih (idx + 1) (s + DOWNLOAD_RETRY_SLEEP_INCREASE_SEC)
      simp only [fetch_loop, hf]
      rw [ihh, hm]
      simp only [Nat.add_sub_cancel, List.range_succ_eq_map, List.map_cons,
        List.map_map]
      have hfun : ((fun i : Nat => s + (i : Rat) * DOWNLOAD_RETRY_SLEEP_INCREASE_SEC) ∘
          Nat.succ) =
          (fun i : Nat => (s + DOWNLOAD_RETRY_SLEEP_INCREASE_SEC) +
            (i : Rat) * DOWNLOAD_RETRY_SLEEP_INCREASE_SEC) := by
        funext i
        simp only [Function.comp]
        push_cast
        ring
      rw [hfun]
      simp
    · simp [fetch_loop, hf]

/-- When every attempt the loop can make fails, the loop re-raises the error
of the last attempt after making all allowed attempts. -/
theorem fetch_loop_all_errors {ε α : Type} (fetches : Nat → Except ε α) :
    ∀ (fuel idx : Nat) (s : Rat),
      (∀ j, j ≤ fuel → ∃ e, fetches (idx + j) = Except.error e) →
      ∃ e, fetches (idx + fuel) = Except.error e ∧
        (fetch_loop fetches idx s fuel).outcome = Except.error e ∧
        (fetch_loop fetches idx s fuel).attempts = fuel + 1 := by
  intro fuel
  induction fuel with
  | zero =>
    intro idx s h
    obtain ⟨e, he⟩ := h 0 (Nat.le_refl 0)
    rw [Nat.add_zero] at he
    refine ⟨e, ?_, ?_, ?_⟩
    · rw [Nat.add_zero]; exact he
    · simp [fetch_loop, he]
    · simp [fetch_loop, he]
  | succ fuel ih =>
    intro idx s h
    obtain ⟨e0, he0⟩ := h 0 (Nat.zero_le _)
    rw [Nat.add_zero] at he0
    obtain ⟨e, he, ho, ha⟩ := ih (idx + 1) (s + DOWNLOAD_RETRY_SLEEP_INCREASE_SEC)
      (fun j hj => by
        obtain ⟨e1, hee⟩ := h (j + 1) (Nat.succ_le_succ hj)
        exact ⟨e1, by rw [show idx + 1 + j = idx + (j + 1) from by omega]; exact hee⟩)
    refine ⟨e, ?_, ?_, ?_⟩
    · rw [show idx + (fuel + 1) = idx + 1 + fuel from by omega]
      exact he
    · simp [fetch_loop, he0, ho]
    · simp [fetch_loop, he0, ha]

/-- When the first success comes at a reachable attempt, the loop stops there
and reports that content, having made exactly that many attempts. -/
theorem fetch_loop_first_ok {ε α : Type} (fetches : Nat → Except ε α) :
    ∀ (m fuel idx : Nat) (s : Rat) (c : α), m ≤ fuel →
      (∀ j, j < m → ∃ e, fetches (idx + j) = Except.error e) →
      fetches (idx + m) = Except.ok c →
      (fetch_loop fetches idx s fuel).outcome = Except.ok c ∧
      (fetch_loop fetches idx s fuel).attempts = m + 1 := by
  intro m
  induction m with
  | zero =>
    intro fuel idx s c _ _ hok
    rw [Nat.add_zero] at hok
    cases fuel <;> exact ⟨by simp [fetch_loop, hok], by simp [fetch_loop, hok]⟩
  | succ m ih =>
    intro fuel idx s c hm herr hok
    obtain ⟨fuel2, rfl⟩ : ∃ f2, fuel = f2 + 1 := ⟨fuel - 1, by omega⟩
    obtain ⟨e0, he0⟩ := herr 0 (Nat.succ_pos m)
    rw [Nat.add_zero] at he0
    obtain ⟨ho, ha⟩ := ih fuel2 (idx + 1) (s + DOWNLOAD_RETRY_SLEEP_INCREASE_SEC) c
      (by omega)
      (fun j hj => by
        obtain ⟨e1, hee⟩ := herr (j + 1) (Nat.succ_lt_succ hj)
        exact ⟨e1, by rw [show idx + 1 + j = idx + (j + 1) from by omega]; exact hee⟩)
      (by rw [show idx + 1 + m = idx + (m + 1) from by omega]; exact hok)
    exact ⟨by simp [fetch_loop, he0, ho], by simp [fetch_loop, he0, ha]⟩

/-- The network call count and the sleep list of the fetch phase are those of
the retry loop, whatever the checksum verdict afterwards. -/
theorem ensure_fetch_proj {ε α : Type} (hash : α → String) (expected : String)
    (fetches : Nat → Except ε α) :
    (ensure_file_downloaded_fetch hash expected fetches).networkCalls =
      (fetch_loop fetches 1 INITIAL_DOWNLOAD_RETRY_SLEEP_TIME_SEC
        (MAX_FETCH_ATTEMPTS - 1)).attempts ∧
    (ensure_file_downloaded_fetch hash expected fetches).sleeps =
      (fetch_loop fetches 1 INITIAL_DOWNLOAD_RETRY_SLEEP_TIME_SEC
        (MAX_FETCH_ATTEMPTS - 1)).sleeps := by
  rcases ho : (fetch_loop fetches 1 INITIAL_DOWNLOAD_RETRY_SLEEP_TIME_SEC
      (MAX_FETCH_ATTEMPTS - 1)).outcome with e | c
  · constructor <;> simp [ensure_file_downloaded_fetch, ho]
  · cases hh : hash c == expected <;>
      constructor <;> simp [ensure_file_downloaded_fetch, ho, hh]

/-- The fetch phase makes at most the maximum number of attempts and its
sleeps follow the linear backoff sequence from the initial sleep time. -/
theorem ensure_fetch_bounds {ε α : Type} (hash : α → String) (expected : String)
    (fetches : Nat → Except ε α) :
    (ensure_file_downloaded_fetch hash expected fetches).networkCalls ≤
      MAX_FETCH_ATTEMPTS ∧
    (ensure_file_downloaded_fetch hash expected fetches).sleeps =
      (List.range ((ensure_file_downloaded_fetch hash expected
          fetches).networkCalls - 1)).map
        (fun i : Nat => INITIAL_DOWNLOAD_RETRY_SLEEP_TIME_SEC +
          (i : Rat) * DOWNLOAD_RETRY_SLEEP_INCREASE_SEC) := by
  obtain ⟨hc, hs⟩ := ensure_fetch_proj hash expected fetches
  constructor
  · rw [hc]
    have hle := fetch_loop_attempts_le fetches (MAX_FETCH_ATTEMPTS - 1) 1
      INITIAL_DOWNLOAD_RETRY_SLEEP_TIME_SEC
    simpa [MAX_FETCH_ATTEMPTS] using hle
  · rw [hs, hc]
    exact fetch_loop_sleeps fetches (MAX_FETCH_ATTEMPTS - 1) 1
      INITIAL_DOWNLOAD_RETRY_SLEEP_TIME_SEC

/-- Claim C4: the download fetch loop makes at most MAX_FETCH_ATTEMPTS
attempts, sleeping between consecutive attempts with the linearly increasing
delay that starts at 1.0 seconds and grows by 0.5 seconds per attempt; after
exhausting all attempts it re-raises the error of the last attempt; and a
checksum mismatch detected after a successful fetch is fatal at once, with no
further attempt consumed. -/
theorem fetch_retry_policy_spec {ε α : Type} (hash : α → String)
    (expected : String) (existing : Option α) (fetches : Nat → Except ε α)
    (r : DownloadResult ε α)
    (hr : r = ensure_file_downloaded hash expected existing fetches) :
    r.networkCalls ≤ MAX_FETCH_ATTEMPTS ∧
    r.sleeps = (List.range (r.networkCalls - 1)).map
      (fun i : Nat => INITIAL_DOWNLOAD_RETRY_SLEEP_TIME_SEC +
        (i : Rat) * DOWNLOAD_RETRY_SLEEP_INCREASE_SEC) ∧
    (existing = none →
      (∀ j, 1 ≤ j → j ≤ MAX_FETCH_ATTEMPTS → ∃ e, fetches j = Except.error e) →
      ∃ e, fetches MAX_FETCH_ATTEMPTS = Except.error e ∧
        r.outcome = DownloadOutcome.fetchFailed e ∧
        r.networkCalls = MAX_FETCH_ATTEMPTS) ∧
    (∀ k c, existing = none → 1 ≤ k → k ≤ MAX_FETCH_ATTEMPTS →
      (∀ j, 1 ≤ j → j < k → ∃ e, fetches j = Except.error e) →
      fetches k = Except.ok c → ¬hash c = expected →
      r.outcome = DownloadOutcome.checksumMismatchFatal ∧
      r.networkCalls = k) := by
  subst hr
  have h10 : MAX_FETCH_ATTEMPTS = 10 := rfl
  refine ⟨?_, ?_, ?_, ?_⟩
  · rcases existing with _ | c0
    · exact (ensure_fetch_bounds hash expected fetches).1
    · cases hh : hash c0 == expected
      · simpa [ensure_file_downloaded, hh] using
          (ensure_fetch_bounds hash expected fetches).1
      · simp [ensure_file_downloaded, hh]
  · rcases existing with _ | c0
    · exact (ensure_fetch_bounds hash expected fetches).2
    · cases hh : hash c0 == expected
      · simpa [ensure_file_downloaded, hh] using
          (ensure_fetch_bounds hash expected fetches).2
      · simp [ensure_file_downloaded, hh]
  · intro hex hall
    subst hex
    obtain ⟨e, he, ho, ha⟩ := fetch_loop_all_errors fetches
      (MAX_FETCH_ATTEMPTS - 1) 1 INITIAL_DOWNLOAD_RETRY_SLEEP_TIME_SEC
      (fun j hj => by
        obtain ⟨e1, hee⟩ := hall (j + 1) (by omega) (by omega)
        exact ⟨e1, by rw [show (1 : Nat) + j = j + 1 from by omega]; exact hee⟩)
    rw [show (1 : Nat) + (MAX_FETCH_ATTEMPTS - 1) = MAX_FETCH_ATTEMPTS from
      by omega] at he
    refine ⟨e, he, ?_, ?_⟩
    · simp [ensure_file_downloaded, ensure_file_downloaded_fetch, ho]
    · simp [ensure_file_downloaded, ensure_file_downloaded_fetch, ho, ha]
      omega
  · intro k c hex h1 hk herr hok hne
    subst hex
    obtain ⟨k2, rfl⟩ : ∃ k2, k = k2 + 1 := ⟨k - 1, by omega⟩
    obtain ⟨ho, ha⟩ := fetch_loop_first_ok fetches k2 (MAX_FETCH_ATTEMPTS - 1) 1
      INITIAL_DOWNLOAD_RETRY_SLEEP_TIME_SEC c (by omega)
      (fun j hj => by
        obtain ⟨e1, hee⟩ := herr (j + 1) (by omega) (by omega)
        exact ⟨e1, by rw [show (1 : Nat) + j = j + 1 from by omega]; exact hee⟩)
      (by rw [show (1 : Nat) + k2 = k2 + 1 from by omega]; exact hok)
    have hbf : (hash c == expected) = false := by
      rw [Bool.eq_false_iff]
      intro hcon
      exact hne (by simpa using hcon)
    constructor
    · simp [ensure_file_downloaded, ensure_file_downloaded_fetch, ho, hbf]
    · simp [ensure_file_downloaded, ensure_file_downloaded_fetch, ho, hbf, ha]

/-- Witness for C4: with every attempt failing, the loop stops after exactly
MAX_FETCH_ATTEMPTS network calls and re-raises the last error. -/
theorem fetch_retry_policy_witness :
    (ensure_file_downloaded (fun s : String => s) "x" none
        (fun _ => Except.error (7 : Nat))).outcome =
      DownloadOutcome.fetchFailed 7 ∧
    (ensure_file_downloaded (fun s : String => s) "x" none
        (fun _ => Except.error (7 : Nat))).networkCalls = MAX_FETCH_ATTEMPTS := by
  have h := (fetch_retry_policy_spec (fun s : String => s) "x" none
    (fun _ => Except.error (7 : Nat)) _ rfl).2.2.1 rfl
    (fun j h1 h2 => ⟨7, rfl⟩)
  obtain ⟨e, he, ho, hn⟩ := h
  have he7 : 7 = e := by injection he
  subst he7
  exact ⟨ho, hn⟩

/-- A skipped or fetched outcome of the fetch phase certifies that the file
left at the path has the expected checksum. -/
theorem ensure_fetch_good_hash {ε α : Type} (hash : α → String)
    (expected : String) (fetches : Nat → Except ε α) (c : α)
    (hfile : (ensure_file_downloaded_fetch hash expected fetches).fileAtPath =
      some c)
    (hout : (ensure_file_downloaded_fetch hash expected fetches).outcome =
        DownloadOutcome.skipped ∨
      (ensure_file_downloaded_fetch hash expected fetches).outcome =
        DownloadOutcome.fetched) :
    hash c = expected := by
  rcases ho : (fetch_loop fetches 1 INITIAL_DOWNLOAD_RETRY_SLEEP_TIME_SEC
      (MAX_FETCH_ATTEMPTS - 1)).outcome with e | c1
  · simp [ensure_file_downloaded_fetch, ho] at hfile
  · cases hh : hash c1 == expected
    · simp [ensure_file_downloaded_fetch, ho, hh] at hout
    · simp [ensure_file_downloaded_fetch, ho, hh] at hfile
      subst hfile
      simpa using hh

/-- A skipped or fetched outcome of Builder.ensure_file_downloaded certifies
that the file left at the path has the expected checksum. -/
theorem ensure_good_hash {ε α : Type} (hash : α → String) (expected : String)
    (existing : Option α) (fetches : Nat → Except ε α) (c : α)
    (hfile : (ensure_file_downloaded hash expected existing fetches).fileAtPath =
      some c)
    (hout : (ensure_file_downloaded hash expected existing fetches).outcome =
        DownloadOutcome.skipped ∨
      (ensure_file_downloaded hash expected existing fetches).outcome =
        DownloadOutcome.fetched) :
    hash c = expected := by
  rcases existing with _ | c0
  · exact ensure_fetch_good_hash hash expected fetches c hfile hout
  · cases hh : hash c0 == expected
    · simp only [ensure_file_downloaded, hh, Bool.false_eq_true, if_false]
        at hfile hout
      exact ensure_fetch_good_hash hash expected fetches c hfile hout
    · simp [ensure_file_downloaded, hh] at hfile
      subst hfile
      simpa using hh

/-- Claim C3: with a registered checksum, an existing file whose checksum
matches is kept and no network call is made; an existing file with a
mismatched checksum is deleted and the outcome is that of a fresh fetch; and
after any successful call a second call with the resulting file skips with
zero network calls and leaves the file identical. -/
theorem download_verified_cache_spec {ε α : Type} (hash : α → String)
    (expected : String) (existing : Option α)
    (fetches fetches2 : Nat → Except ε α) :
    (∀ c, existing = some c → hash c = expected →
      ensure_file_downloaded hash expected existing fetches =
        DownloadResult.mk (some c) 0 [] DownloadOutcome.skipped) ∧
    (∀ c, existing = some c → ¬hash c = expected →
      ensure_file_downloaded hash expected existing fetches =
        ensure_file_downloaded hash expected none fetches) ∧
    (∀ c, (ensure_file_downloaded hash expected existing fetches).fileAtPath =
        some c →
      ((ensure_file_downloaded hash expected existing fetches).outcome =
          DownloadOutcome.skipped ∨
        (ensure_file_downloaded hash expected existing fetches).outcome =
          DownloadOutcome.fetched) →
      ensure_file_downloaded hash expected (some c) fetches2 =
        DownloadResult.mk (some c) 0 [] DownloadOutcome.skipped) := by
  refine ⟨?_, ?_, ?_⟩
  · intro c hc hh
    subst hc
    have hb : (hash c == expected) = true := by simpa using hh
    simp [ensure_file_downloaded, hb]
  · intro c hc hh
    subst hc
    have hb : (hash c == expected) = false := by
      rw [Bool.eq_false_iff]
      intro hcon
      exact hh (by simpa using hcon)
    simp [ensure_file_downloaded, hb]
  · intro c hfile hout
    have hgood := ensure_good_hash hash expected existing fetches c hfile hout
    have hb : (hash c == expected) = true := by simpa using hgood
    simp [ensure_file_downloaded, hb]

/-- Witness for C3: an existing file with the registered checksum is kept
with zero network calls. -/
theorem download_verified_cache_witness :
    ensure_file_downloaded (fun s : String => s) "x" (some "x")
        (fun _ => Except.error (0 : Nat)) =
      DownloadResult.mk (some "x") 0 [] DownloadOutcome.skipped :=
  (download_verified_cache_spec (fun s : String => s) "x" (some "x")
    (fun _ => Except.error (0 : Nat)) (fun _ => Except.error (0 : Nat))).1
    "x" rfl rfl

/-- Two strings with different character data are different. -/
theorem string_data_ne {a b : String} (h : a.data = b.data → False) : a ≠ b :=
  fun hc => h (by rw [hc])

/-- A sanitizer flag is never the include flag, whatever the two suffixes. -/
theorem fsan_ne_iflag (s a : String) : ("-fsanitize=" ++ s) ≠ ("-I" ++ a) := by
  apply string_data_ne
  rw [String.data_append, String.data_append]
  intro h
  have h3 : ('-' :: 'f' :: 's' :: 'a' :: 'n' :: 'i' :: 't' :: 'i' :: 'z' :: 'e' ::
      '=' :: s.data) = ('-' :: 'I' :: a.data) := h
  simp at h3

/-- A sanitizer flag is never the Linuxbrew gcc toolchain flag. -/
theorem fsan_ne_brewflag (s a : String) :
    ("-fsanitize=" ++ s) ≠ ("--gcc-toolchain=" ++ a) := by
  apply string_data_ne
  rw [String.data_append, String.data_append]
  intro h
  have h3 : ('-' :: 'f' :: 's' :: 'a' :: 'n' :: 'i' :: 't' :: 'i' :: 'z' :: 'e' ::
      '=' :: s.data) = ('-' :: '-' :: 'g' :: 'c' :: 'c' :: '-' :: 't' :: 'o' ::
      'o' :: 'l' :: 'c' :: 'h' :: 'a' :: 'i' :: 'n' :: '=' :: a.data) := h
  simp at h3

/-- A sanitizer flag is never the frame pointer flag. -/
theorem fsan_ne_fno_omit (s : String) :
    ("-fsanitize=" ++ s) ≠ "-fno-omit-frame-pointer" := by
  apply string_data_ne
  rw [String.data_append]
  intro h
  have h3 : ('-' :: 'f' :: 's' :: 'a' :: 'n' :: 'i' :: 't' :: 'i' :: 'z' :: 'e' ::
      '=' :: s.data) = "-fno-omit-frame-pointer".data := h
  simp at h3

/-- A sanitizer flag is never the position independent code flag. -/
theorem fsan_ne_fPIC (s : String) : ("-fsanitize=" ++ s) ≠ "-fPIC" := by
  apply string_data_ne
  rw [String.data_append]
  intro h
  have h3 : ('-' :: 'f' :: 's' :: 'a' :: 'n' :: 'i' :: 't' :: 'i' :: 'z' :: 'e' ::
      '=' :: s.data) = "-fPIC".data := h
  simp at h3

/-- A sanitizer flag is never the optimization flag. -/
theorem fsan_ne_O2 (s : String) : ("-fsanitize=" ++ s) ≠ "-O2" := by
  apply string_data_ne
  rw [String.data_append]
  intro h
  have h3 : ('-' :: 'f' :: 's' :: 'a' :: 'n' :: 'i' :: 't' :: 'i' :: 'z' :: 'e' ::
      '=' :: s.data) = "-O2".data := h
  simp at h3

/-- A sanitizer flag is never the warnings flag. -/
theorem fsan_ne_Wall (s : String) : ("-fsanitize=" ++ s) ≠ "-Wall" := by
  apply string_data_ne
  rw [String.data_append]
  intro h
  have h3 : ('-' :: 'f' :: 's' :: 'a' :: 'n' :: 'i' :: 't' :: 'i' :: 'z' :: 'e' ::
      '=' :: s.data) = "-Wall".data := h
  simp at h3

/-- The address sanitizer flag is not the include flag. -/
theorem addr_ne_iflag (a : String) : "-fsanitize=address" ≠ ("-I" ++ a) :=
  fsan_ne_iflag "address" a

/-- The undefined behavior sanitizer flag is not the include flag. -/
theorem undef_ne_iflag (a : String) : "-fsanitize=undefined" ≠ ("-I" ++ a) :=
  fsan_ne_iflag "undefined" a

/-- The thread sanitizer flag is not the include flag. -/
theorem thread_ne_iflag (a : String) : "-fsanitize=thread" ≠ ("-I" ++ a) :=
  fsan_ne_iflag "thread" a

/-- The address sanitizer flag is not the Linuxbrew gcc toolchain flag. -/
theorem addr_ne_brewflag (a : String) :
    "-fsanitize=address" ≠ ("--gcc-toolchain=" ++ a) :=
  fsan_ne_brewflag "address" a

/-- The undefined behavior sanitizer flag is not the Linuxbrew gcc toolchain
flag. -/
theorem undef_ne_brewflag (a : String) :
    "-fsanitize=undefined" ≠ ("--gcc-toolchain=" ++ a) :=
  fsan_ne_brewflag "undefined" a

/-- The thread sanitizer flag is not the Linuxbrew gcc toolchain flag. -/
theorem thread_ne_brewflag (a : String) :
    "-fsanitize=thread" ≠ ("--gcc-toolchain=" ++ a) :=
  fsan_ne_brewflag "thread" a

/-- Claim C9: on Linux, the environment composer adds the sanitizer compiler
flags for address and undefined behavior exactly for the ASAN build type,
the thread sanitizer flag exactly for the TSAN build type, and no sanitizer
flag at all for the plain build types. -/
theorem sanitizer_flags_spec (usingLinuxbrew : Bool)
    (linuxbrewDir commonIncludeDir : String) (buildType : BuildType)
    (flags : List String)
    (h : setup_compiler_flags false usingLinuxbrew linuxbrewDir
      commonIncludeDir buildType = Except.ok flags) :
    (("-fsanitize=address" ∈ flags ∧ "-fsanitize=undefined" ∈ flags) ↔
      buildType = BuildType.asan) ∧
    ("-fsanitize=thread" ∈ flags ↔ buildType = BuildType.tsan) ∧
    ((buildType = BuildType.common ∨ buildType = BuildType.uninstrumented ∨
      buildType = BuildType.clang_uninstrumented) →
      ∀ s : String, ("-fsanitize=" ++ s) ∉ flags) := by
  cases buildType <;> cases usingLinuxbrew <;>
    simp only [setup_compiler_flags, building_with_clang,
      init_flags_compiler_flags] at h <;>
    simp at h <;>
    subst h <;>
    refine ⟨?_, ?_, ?_⟩ <;>
    simp [addr_ne_iflag, undef_ne_iflag, thread_ne_iflag, addr_ne_brewflag,
      undef_ne_brewflag, thread_ne_brewflag, fsan_ne_iflag, fsan_ne_brewflag,
      fsan_ne_fno_omit, fsan_ne_fPIC, fsan_ne_O2, fsan_ne_Wall]

/-- Witness for C9: the ASAN build type on Linux receives both address and
undefined behavior sanitizer flags. -/
theorem sanitizer_flags_witness :
    "-fsanitize=address" ∈
      (["-I/common/include", "-fno-omit-frame-pointer", "-fPIC", "-O2", "-Wall",
        "-fsanitize=address", "-fsanitize=undefined", "-DADDRESS_SANITIZER"] :
        List String) := by
  have h := sanitizer_flags_spec false "" "/common/include" BuildType.asan
    ["-I/common/include", "-fno-omit-frame-pointer", "-fPIC", "-O2", "-Wall",
      "-fsanitize=address", "-fsanitize=undefined", "-DADDRESS_SANITIZER"] rfl
  exact (h.1.mpr rfl).1
